import Mathlib

/-!
Verification of the BiasShield explanation core (`src/backend/app.py`,
class `ExplanationGenerator`).

Embedding notes:
* Python floats are modelled as exact rationals (`ℚ`); the claims under
  scrutiny only involve decimal values where binary-float rounding and
  exact-decimal rounding agree.
* Python `dict`s preserve insertion order, and `max(d.items(), key=...)` /
  `min(d.items(), key=...)` return the first item attaining the extreme, so
  rate mappings are modelled as association lists (`List (String × ℚ)`).
* Python `sorted(..., key=..., reverse=True)` is a stable descending sort;
  it is modelled by the stable insertion sort `sortDescBy`.
* Python `f"{x:.1f}"` / `f"{x:,.2f}"` formatting is modelled by `fmt1` /
  `fmtMoney` (round half to even at the last kept decimal digit).
* `generate_bias_explanation` raises `ValueError` when an approval-rate
  mapping is empty (Python `max` on an empty sequence); this fallibility is
  modelled with `Option`.
-/

/-- Round `n / d` (with `d > 0`) to the nearest integer, ties to even
(the rounding used by Python float formatting, transported to `ℚ`). -/
def rndDiv (n : Int) (d : Int) : Int :=
  let e := n / d
  let r := n % d
  if 2 * r < d then e
  else if 2 * r > d then e + 1
  else if e % 2 = 0 then e else e + 1

/-- Model of Python `f"{q:.1f}"`: one decimal digit, round half to even. -/
def fmt1 (q : ℚ) : String :=
  let n := rndDiv (10 * q.num) (q.den : Int)
  let s := if n < 0 then "-" else ""
  let m := n.natAbs
  s ++ (toString (m / 10) ++ ("." ++ toString (m % 10)))

/-- Group a reversed digit list into blocks of three separated by commas. -/
def group3 : List Char → List Char
  | d1 :: d2 :: d3 :: d4 :: rest => d1 :: d2 :: d3 :: ',' :: group3 (d4 :: rest)
  | l => l

/-- Decimal rendering of a natural number with thousands separators. -/
def fmtCommaNat (n : Nat) : String :=
  ⟨(group3 (toString n).data.reverse).reverse⟩

/-- Model of Python `f"{q:,.2f}"`: two decimals, thousands separators. -/
def fmtMoney (q : ℚ) : String :=
  let c := rndDiv (100 * q.num) (q.den : Int)
  let s := if c < 0 then "-" else ""
  let m := c.natAbs
  let cents := m % 100
  s ++ (fmtCommaNat (m / 100) ++ ("." ++ ((if cents < 10 then "0" else "") ++ toString cents)))

/-- Model of Python `str.replace('_', ' ')` for a single-character pattern. -/
def underscoreToSpace (s : String) : String :=
  ⟨s.data.map (fun c => if c = '_' then ' ' else c)⟩

/-- Character-level worker for Python `str.title()`: the flag records whether
the previous character was alphabetic. -/
def pyTitleAux : Bool → List Char → List Char
  | _, [] => []
  | prevAlpha, c :: cs =>
    (if c.isAlpha then (if prevAlpha then c.toLower else c.toUpper) else c)
      :: pyTitleAux c.isAlpha cs

/-- Model of Python `str.title()`. -/
def pyTitle (s : String) : String := ⟨pyTitleAux false s.data⟩

/-- Substring occurrence test on character lists (needle, haystack). -/
def occursB (n : List Char) : List Char → Bool
  | [] => n.isEmpty
  | c :: t => n.isPrefixOf (c :: t) || occursB n t

/-- Split a character list at newline characters. -/
def splitLinesAux (cur : List Char) : List Char → List (List Char)
  | [] => [cur.reverse]
  | c :: cs => if c = '\n' then cur.reverse :: splitLinesAux [] cs
               else splitLinesAux (c :: cur) cs

/-- A line shaped like a numbered bullet: digit, then `.`, then a space. -/
def isNumberedLine (l : List Char) : Bool :=
  match l with
  | c :: '.' :: ' ' :: _ => c.isDigit
  | _ => false

/-- Number of numbered-bullet lines in a string. -/
def countNumbered (s : String) : Nat :=
  ((splitLinesAux [] s.data).filter isNumberedLine).length

/-- Stable descending insertion (earlier elements stay before later
equal-key elements): Python `sorted(..., key=..., reverse=True)` helper. -/
def insertDescBy (key : String × ℚ → ℚ) (p : String × ℚ) :
    List (String × ℚ) → List (String × ℚ)
  | [] => [p]
  | q :: qs => if key q ≤ key p then p :: q :: qs else q :: insertDescBy key p qs

/-- Stable descending sort by a key, the model of Python
`sorted(..., key=..., reverse=True)`. -/
def sortDescBy (key : String × ℚ → ℚ) : List (String × ℚ) → List (String × ℚ)
  | [] => []
  | x :: xs => insertDescBy key x (sortDescBy key xs)

/-- Model of Python `max(l.items(), key=lambda x: x[1])` (first extreme wins);
`none` corresponds to `ValueError` on an empty mapping. -/
def maxByVal : List (String × ℚ) → Option (String × ℚ)
  | [] => none
  | x :: xs => some (xs.foldl (fun b p => if b.2 < p.2 then p else b) x)

/-- Model of Python `min(l.items(), key=lambda x: x[1])` (first extreme wins). -/
def minByVal : List (String × ℚ) → Option (String × ℚ)
  | [] => none
  | x :: xs => some (xs.foldl (fun b p => if p.2 < b.2 then p else b) x)

/- ### Data model (`app.py` pydantic models) -/

/-- `LoanApplication` (app.py lines 50-63). -/
structure LoanApplication where
  gender : String
  race : String
  age : Int
  income : ℚ
  credit_score : Int
  loan_amount : ℚ
  employment_type : String
  education_level : String
  citizenship_status : String
  language_proficiency : String
  disability_status : String
  criminal_record : String
  zip_code_group : String

/-- `PredictionResponse` (app.py lines 65-68); the explanation mapping is an
insertion-ordered association list. -/
structure PredictionResponse where
  approved : Bool
  approval_probability : ℚ
  explanation : List (String × ℚ)

/-- `BiasMetrics` (app.py lines 70-76). -/
structure BiasMetrics where
  approval_rates : List (String × ℚ)
  approval_disparity : ℚ
  fp_rates : List (String × ℚ)
  fn_rates : List (String × ℚ)
  fp_disparity : ℚ
  fn_disparity : ℚ

/-- `FairnessResponse` (app.py lines 78-82): exactly the four fixed
protected attributes. -/
structure FairnessResponse where
  gender : BiasMetrics
  race : BiasMetrics
  age_group : BiasMetrics
  disability_status : BiasMetrics

/- ### ExplanationGenerator.generate_loan_explanation (app.py 93-152) -/

/-- `sorted_factors`/`top_factors` (app.py 104-105): factors sorted by
impact value descending (signed), truncated to the top three. -/
def top_factors (prediction : PredictionResponse) : List (String × ℚ) :=
  (sortDescBy (fun x => x.2) prediction.explanation).take 3

/-- One bullet of the approved branch (app.py 114-116). -/
def factorLineApproved (p : String × ℚ) : String :=
  "- " ++ (pyTitle (underscoreToSpace p.1) ++
    (": This factor had a " ++ (fmt1 (p.2 * 100) ++ "% impact on your approval\n")))

/-- One bullet of the denied branch (app.py 136-138). -/
def factorLineDenied (p : String × ℚ) : String :=
  "- " ++ (pyTitle (underscoreToSpace p.1) ++
    (": This factor had a " ++ (fmt1 (p.2 * 100) ++ "% impact on the decision\n")))

/-- Opening paragraph of the approved branch (app.py 109-113). -/
def approvedOpening (probability : ℚ) : String :=
  "\nWe are pleased to inform you that your loan application has been approved with an approval probability of "
  ++ (fmt1 probability
  ++ "%. Our BiasShield system has carefully evaluated your application, taking into account various factors that contribute to your creditworthiness.\n\nThe key factors that positively influenced this decision include:\n")

/-- The static text of the approved branch following the interpolated credit
score and income (app.py 118-129). -/
def approvedStatic : String :=
  " demonstrate financial stability, which are important indicators of your ability to repay the loan.\n\nRecommendations:\n1. Maintain your current credit score by making timely payments\n2. Consider setting up automatic payments to avoid any missed deadlines\n3. Review your loan terms carefully before proceeding\n\nThank you for choosing our services. If you have any questions about your approval or the next steps, please don\x27t hesitate to contact our customer service team.\n\nBiasShield Decision System\n"

/-- Closing block of the approved branch (app.py 118-129). -/
def approvedTail (application : LoanApplication) : String :=
  "\nYour credit score of " ++ (toString application.credit_score ++
    (" and income of $" ++ (fmtMoney application.income ++ approvedStatic)))

/-- Opening paragraph of the denied branch (app.py 131-135). -/
def deniedOpening (probability : ℚ) : String :=
  "\nWe regret to inform you that your loan application has not been approved at this time. Our BiasShield system has carefully evaluated your application and determined that it does not meet our current lending criteria. The decision was made with an approval probability of "
  ++ (fmt1 probability
  ++ "%.\n\nThe key factors that influenced this decision include:\n")

/-- Closing block of the denied branch (app.py 140-150); fully static. -/
def deniedTail : String :=
  "\nRecommendations to improve your future applications:\n1. Work on improving your credit score through timely bill payments\n2. Reduce existing debt before applying for new credit\n3. Consider applying for a smaller loan amount relative to your income\n4. Wait 3-6 months before reapplying to allow time for credit improvements\n\nWe encourage you to review your credit report for any inaccuracies and address any issues that may be affecting your creditworthiness. If you believe this decision was made in error or would like more information, you can request a detailed explanation of the decision.\n\nBiasShield Decision System\n"

/-- `ExplanationGenerator.generate_loan_explanation` (app.py 93-152). -/
def generate_loan_explanation (application : LoanApplication)
    (prediction : PredictionResponse) : String :=
  let probability := prediction.approval_probability * 100
  if prediction.approved then
    approvedOpening probability
      ++ (String.join ((top_factors prediction).map factorLineApproved)
      ++ approvedTail application)
  else
    deniedOpening probability
      ++ (String.join ((top_factors prediction).map factorLineDenied)
      ++ deniedTail)

/- ### ExplanationGenerator.generate_bias_explanation (app.py 154-249) -/

/-- The four named disparities, each `approval_disparity * 100`, in source
order (app.py 160-171). -/
def disparities (fairness_data : FairnessResponse) : List (String × ℚ) :=
  [("Gender", fairness_data.gender.approval_disparity * 100),
   ("Race", fairness_data.race.approval_disparity * 100),
   ("Age Group", fairness_data.age_group.approval_disparity * 100),
   ("Disability Status", fairness_data.disability_status.approval_disparity * 100)]

/-- `sorted_disparities` (app.py 174): stable sort by absolute magnitude,
descending. -/
def sorted_disparities (fairness_data : FairnessResponse) : List (String × ℚ) :=
  sortDescBy (fun x => |x.2|) (disparities fairness_data)

/-- Python `max(abs(d[1]) for d in disparities)` (app.py 181, 183, 242, 244).
Seeding the fold with 0 is equivalent to Python max over the nonempty list
because every `abs` value is nonnegative. -/
def maxAbsDisparity (fairness_data : FairnessResponse) : ℚ :=
  (disparities fairness_data).foldl (fun m d => max m |d.2|) 0

/-- The summary alert line of the bias report (app.py 181-186). -/
def summaryLine (fairness_data : FairnessResponse) : String :=
  if maxAbsDisparity fairness_data > 10 then
    "**High Bias Alert**: Significant disparities detected in approval rates across protected attributes.\n\n"
  else if maxAbsDisparity fairness_data > 5 then
    "**Moderate Bias Alert**: Some disparities detected in approval rates across protected attributes.\n\n"
  else
    "**Low Bias Alert**: Minimal disparities detected in approval rates across protected attributes.\n\n"

/-- The conclusion paragraph of the bias report (app.py 242-247). -/
def conclusionLine (fairness_data : FairnessResponse) : String :=
  if maxAbsDisparity fairness_data > 10 then
    "The model shows significant bias that requires immediate attention. Implementing bias mitigation techniques is strongly recommended before deploying this model in production.\n"
  else if maxAbsDisparity fairness_data > 5 then
    "The model shows moderate bias that should be addressed. Consider implementing bias mitigation techniques to improve fairness before full deployment.\n"
  else
    "The model shows acceptable levels of bias, but continuous monitoring is recommended to ensure fairness is maintained over time.\n"

/-- The fixed regulatory-concern line (app.py 203 and its three copies). -/
def regLine : String :=
  "- **Regulatory concern**: This disparity exceeds the typical 5% threshold for regulatory scrutiny.\n"

/-- The body lines of one attribute subsection (app.py 194-236, identical in
all four branches): disparity, highest group, lowest group, and the
regulatory-concern line exactly when `|disparity| > 5`. `none` models the
`ValueError` Python raises on an empty rate mapping. -/
def sectionLines (rates : List (String × ℚ)) (disparity : ℚ) :
    Option (List String) :=
  match maxByVal rates, minByVal rates with
  | some highest, some lowest =>
    some (["- Approval rate disparity: " ++ (fmt1 disparity ++ "%\n"),
           "- Highest approval rate: " ++ (highest.1 ++ (" (" ++ (fmt1 (highest.2 * 100) ++ "%)\n"))),
           "- Lowest approval rate: " ++ (lowest.1 ++ (" (" ++ (fmt1 (lowest.2 * 100) ++ "%)\n")))]
          ++ if |disparity| > 5 then [regLine] else [])
  | _, _ => none

/-- One full attribute subsection of the bias report (app.py 191-238): the
bold attribute header, the branch on the attribute name selecting the rate
mapping, and the trailing blank line. An unmatched attribute name adds no
body lines, as in the source if/elif chain. -/
def attrSection (fairness_data : FairnessResponse) (p : String × ℚ) :
    Option String :=
  let body : Option (List String) :=
    if p.1 = "Gender" then sectionLines fairness_data.gender.approval_rates p.2
    else if p.1 = "Race" then sectionLines fairness_data.race.approval_rates p.2
    else if p.1 = "Age Group" then sectionLines fairness_data.age_group.approval_rates p.2
    else if p.1 = "Disability Status" then sectionLines fairness_data.disability_status.approval_rates p.2
    else some []
  body.map (fun ls => "**" ++ (p.1 ++ "**:\n") ++ (String.join ls ++ "\n"))

/-- The detailed-analysis loop (app.py 191-238): one subsection per ranked
attribute, short-circuiting on the first failure as the Python loop does
when an exception is raised. -/
def biasSections (fairness_data : FairnessResponse) :
    List (String × ℚ) → Option (List String)
  | [] => some []
  | p :: ps =>
    match attrSection fairness_data p, biasSections fairness_data ps with
    | some s, some rest => some (s :: rest)
    | _, _ => none

/-- `ExplanationGenerator.generate_bias_explanation` (app.py 154-249). -/
def generate_bias_explanation (fairness_data : FairnessResponse) :
    Option String :=
  (biasSections fairness_data (sorted_disparities fairness_data)).map
    (fun secs =>
      "## Bias Analysis Report\n\n### Summary of Findings\n\n"
        ++ (summaryLine fairness_data
        ++ ("### Detailed Analysis\n\n"
        ++ (String.join secs
        ++ ("### Conclusion\n\n" ++ conclusionLine fairness_data)))))

/- ### ExplanationGenerator.generate_remediation_strategy (app.py 251-335) -/

/-- `most_biased` (app.py 271-272): the name at the head of the stably
sorted disparity list; the default is never reached because the list always
has four elements. -/
def most_biased (fairness_data : FairnessResponse) : String :=
  ((sorted_disparities fairness_data).headD ("", 0)).1

/-- The remediation-strategy text before the parameterized sentence
(app.py 275-282). -/
def remediationBefore : String :=
  "## Bias Remediation Strategy\n\n"
  ++ ("### Technical Strategies\n\n"
  ++ ("1. **Fairness Constraints**:\n"
  ++ ("   - Implement Demographic Parity constraints during model training\n"
  ++ "   - Apply Equalized Odds constraints to balance error rates across groups\n")))

/-- The remediation-strategy text after the parameterized sentence
(app.py 285-333). -/
def remediationAfter : String :=
  String.join
    ["2. **Data Rebalancing**:\n",
     "   - Apply instance weighting to compensate for underrepresented groups\n",
     "   - Use reweighing techniques from the AIF360 toolkit\n",
     "   - Consider synthetic data generation for minority groups\n\n",
     "3. **Model Adjustments**:\n",
     "   - Optimize classification thresholds separately for each demographic group\n",
     "   - Implement adversarial debiasing techniques\n",
     "   - Consider ensemble methods that combine multiple fair classifiers\n\n",
     "### Feature Engineering Approaches\n\n",
     "1. **Feature Selection**:\n",
     "   - Remove or reduce weight of features highly correlated with protected attributes\n",
     "   - Identify and eliminate proxy variables that may encode bias\n\n",
     "2. **Feature Transformation**:\n",
     "   - Apply fairness-aware feature transformations\n",
     "   - Develop composite features that are less correlated with protected attributes\n\n",
     "### Policy Recommendations\n\n",
     "1. **Process Changes**:\n",
     "   - Implement a second-level review for rejected applications from protected groups\n",
     "   - Establish clear documentation requirements for all lending decisions\n\n",
     "2. **Monitoring Framework**:\n",
     "   - Set up continuous monitoring of approval rates across demographic groups\n",
     "   - Establish disparity thresholds that trigger automatic reviews\n",
     "   - Conduct regular fairness audits with detailed reporting\n\n",
     "### Implementation Considerations\n\n",
     "1. **Performance Tradeoffs**:\n",
     "   - Be aware that some fairness constraints may slightly reduce overall model accuracy\n",
     "   - Establish acceptable thresholds for both fairness and performance\n\n",
     "2. **Regulatory Compliance**:\n",
     "   - Document all bias mitigation efforts for regulatory review\n",
     "   - Ensure compliance with ECOA, FHA, and FCRA requirements\n",
     "   - Prepare explanations for any remaining disparities\n\n",
     "3. **Validation Approach**:\n",
     "   - Test remediation strategies on historical data before implementation\n",
     "   - Use A/B testing to validate improvements in fairness metrics\n",
     "   - Establish a feedback loop for continuous improvement\n\n"]

/-- `ExplanationGenerator.generate_remediation_strategy` (app.py 251-335):
everything is static text except the single sentence naming `most_biased`. -/
def generate_remediation_strategy (fairness_data : FairnessResponse) : String :=
  remediationBefore
    ++ (("   - Focus particularly on "
      ++ (most_biased fairness_data
      ++ " fairness, which shows the highest disparity\n\n"))
    ++ remediationAfter)

/- ### Properties of the stable descending sort -/

theorem insertDescBy_perm (key : String × ℚ → ℚ) (p : String × ℚ) :
    ∀ l : List (String × ℚ), List.Perm (insertDescBy key p l) (p :: l)
  | [] => by simp [insertDescBy]
  | q :: qs => by
    simp only [insertDescBy]
    by_cases hc : key q ≤ key p
    · rw [if_pos hc]
    · rw [if_neg hc]
      exact ((insertDescBy_perm key p qs).cons q).trans (List.Perm.swap p q qs)

theorem sortDescBy_perm (key : String × ℚ → ℚ) :
    ∀ l : List (String × ℚ), List.Perm (sortDescBy key l) l
  | [] => by simp [sortDescBy]
  | x :: xs => by
    simp only [sortDescBy]
    exact (insertDescBy_perm key x (sortDescBy key xs)).trans
      ((sortDescBy_perm key xs).cons x)

theorem pairwise_insertDescBy (key : String × ℚ → ℚ) (p : String × ℚ) :
    ∀ l : List (String × ℚ),
      l.Pairwise (fun a b => key b ≤ key a) →
      (insertDescBy key p l).Pairwise (fun a b => key b ≤ key a)
  | [], _ => by simp [insertDescBy]
  | q :: qs, h => by
    rcases List.pairwise_cons.mp h with ⟨hq, hqs⟩
    simp only [insertDescBy]
    by_cases hc : key q ≤ key p
    · rw [if_pos hc]
      refine List.pairwise_cons.mpr ⟨?_, h⟩
      intro x hx
      rcases List.mem_cons.mp hx with rfl | hx
      · exact hc
      · exact (hq x hx).trans hc
    · rw [if_neg hc]
      refine List.pairwise_cons.mpr ⟨?_, pairwise_insertDescBy key p qs hqs⟩
      intro x hx
      have hx' : x ∈ p :: qs := (insertDescBy_perm key p qs).subset hx
      rcases List.mem_cons.mp hx' with rfl | hx'
      · exact le_of_lt (lt_of_not_le hc)
      · exact hq x hx'

theorem pairwise_sortDescBy (key : String × ℚ → ℚ) :
    ∀ l : List (String × ℚ),
      (sortDescBy key l).Pairwise (fun a b => key b ≤ key a)
  | [] => by simp [sortDescBy]
  | x :: xs => pairwise_insertDescBy key x (sortDescBy key xs)
      (pairwise_sortDescBy key xs)

theorem filter_insertDescBy (key : String × ℚ → ℚ) (p : String × ℚ) (m : ℚ) :
    ∀ l : List (String × ℚ),
      (insertDescBy key p l).filter (fun q => decide (key q = m))
        = if key p = m then p :: l.filter (fun q => decide (key q = m))
          else l.filter (fun q => decide (key q = m))
  | [] => by
    simp only [insertDescBy, List.filter_cons, List.filter_nil]
    by_cases hp : key p = m <;> simp [hp]
  | q :: qs => by
    simp only [insertDescBy]
    by_cases hc : key q ≤ key p
    · rw [if_pos hc]
      by_cases hp : key p = m <;> simp [List.filter_cons, hp]
    · rw [if_neg hc]
      rw [List.filter_cons]
      by_cases hp : key p = m
      · have hqm : ¬ key q = m := by
          intro hq; exact hc (by rw [hq, ← hp])
        rw [filter_insertDescBy key p m qs]
        simp [hp, hqm, List.filter_cons]
      · rw [filter_insertDescBy key p m qs]
        by_cases hq : key q = m <;> simp [hp, hq, List.filter_cons]

theorem filter_sortDescBy (key : String × ℚ → ℚ) (m : ℚ) :
    ∀ l : List (String × ℚ),
      (sortDescBy key l).filter (fun q => decide (key q = m))
        = l.filter (fun q => decide (key q = m))
  | [] => rfl
  | x :: xs => by
    simp only [sortDescBy]
    rw [filter_insertDescBy key x m (sortDescBy key xs),
      filter_sortDescBy key m xs, List.filter_cons]
    by_cases hx : key x = m <;> simp [hx]

theorem find?_eq_head?_filter (f : String × ℚ → Bool) :
    ∀ l : List (String × ℚ), l.find? f = (l.filter f).head?
  | [] => rfl
  | x :: xs => by
    rw [List.find?_cons, List.filter_cons]
    cases hx : f x
    · exact find?_eq_head?_filter f xs
    · rfl

theorem find?_congr_on (f g : String × ℚ → Bool) :
    ∀ l : List (String × ℚ), (∀ x ∈ l, f x = g x) → l.find? f = l.find? g
  | [], _ => rfl
  | x :: xs, h => by
    rw [List.find?_cons, List.find?_cons, h x (List.mem_cons_self x xs)]
    cases hx : g x
    · simpa using find?_congr_on f g xs
        (fun y hy => h y (List.mem_cons_of_mem x hy))
    · simp

/-- The head of the stably sorted list is the first element of the input
attaining the maximal key: the model of `sorted(...)[0]` under Python's tie
policy. -/
theorem sortDescBy_head_first_max (key : String × ℚ → ℚ) (x : String × ℚ)
    (xs : List (String × ℚ)) (dflt : String × ℚ) :
    (x :: xs).find? (fun p => (x :: xs).all (fun q => decide (key q ≤ key p)))
      = some ((sortDescBy key (x :: xs)).headD dflt) := by
  have hperm : List.Perm (sortDescBy key (x :: xs)) (x :: xs) :=
    sortDescBy_perm key _
  have hsorted := pairwise_sortDescBy key (x :: xs)
  obtain ⟨r, rest, hr⟩ : ∃ r rest, sortDescBy key (x :: xs) = r :: rest := by
    cases hs : sortDescBy key (x :: xs) with
    | nil => exact absurd (hs ▸ hperm).length_eq (by simp)
    | cons a b => exact ⟨a, b, rfl⟩
  rw [hr] at hperm hsorted
  have hrl : r ∈ x :: xs := hperm.subset (List.mem_cons_self r rest)
  have hmax : ∀ p ∈ x :: xs, key p ≤ key r := by
    intro p hp
    rcases List.mem_cons.mp (hperm.mem_iff.mpr hp) with rfl | hp'
    · exact le_refl _
    · exact (List.pairwise_cons.mp hsorted).1 p hp'
  have h1 : (x :: xs).find? (fun p => (x :: xs).all (fun q => decide (key q ≤ key p)))
      = (x :: xs).find? (fun p => decide (key p = key r)) := by
    apply find?_congr_on
    intro p hp
    by_cases hpr : key p = key r
    · have hall : (x :: xs).all (fun q => decide (key q ≤ key p)) = true := by
        rw [List.all_eq_true]
        intro q hq
        simpa using hpr ▸ hmax q hq
      rw [hall]
      exact (decide_eq_true hpr).symm
    · have hnr : ¬ key r ≤ key p :=
        fun hle => hpr (le_antisymm (hmax p hp) hle)
      have hall : (x :: xs).all (fun q => decide (key q ≤ key p)) = false := by
        simp only [List.all_eq_false]
        exact ⟨r, hrl, by simpa using hnr⟩
      rw [hall]
      exact (decide_eq_false hpr).symm
  rw [h1, find?_eq_head?_filter, ← filter_sortDescBy key (key r) (x :: xs), hr,
    List.filter_cons]
  simp

/- ### Properties of the first-extreme selection -/

theorem foldlMax_spec (xs : List (String × ℚ)) :
    ∀ b : String × ℚ,
      (xs.foldl (fun b p => if b.2 < p.2 then p else b) b) ∈ b :: xs
      ∧ b.2 ≤ (xs.foldl (fun b p => if b.2 < p.2 then p else b) b).2
      ∧ (∀ p ∈ xs, p.2 ≤ (xs.foldl (fun b p => if b.2 < p.2 then p else b) b).2)
      ∧ (b :: xs).find?
          (fun p => decide ((xs.foldl (fun b p => if b.2 < p.2 then p else b) b).2 ≤ p.2))
          = some (xs.foldl (fun b p => if b.2 < p.2 then p else b) b) := by
  induction xs with
  | nil =>
    intro b
    refine ⟨List.mem_cons_self b [], le_refl _, by simp, ?_⟩
    rw [List.find?_cons]
    simp
  | cons x t ih =>
    intro b
    simp only [List.foldl_cons]
    by_cases hbx : b.2 < x.2
    · have hstep : (if b.2 < x.2 then x else b) = x := if_pos hbx
      simp only [hstep]
      obtain ⟨h1, h2, h3, h4⟩ := ih x
      refine ⟨?_, ?_, ?_, ?_⟩
      · rcases List.mem_cons.mp h1 with hh | hh
        · rw [hh]; exact List.mem_cons_of_mem b (List.mem_cons_self x t)
        · exact List.mem_cons_of_mem b (List.mem_cons_of_mem x hh)
      · exact le_of_lt (lt_of_lt_of_le hbx h2)
      · intro p hp
        rcases List.mem_cons.mp hp with rfl | hp
        · exact h2
        · exact h3 p hp
      · rw [List.find?_cons]
        have hb : ¬ (t.foldl (fun b p => if b.2 < p.2 then p else b) x).2 ≤ b.2 :=
          not_le_of_lt (lt_of_lt_of_le hbx h2)
        simp only [decide_eq_false hb]
        exact h4
    · have hstep : (if b.2 < x.2 then x else b) = b := if_neg hbx
      simp only [hstep]
      obtain ⟨h1, h2, h3, h4⟩ := ih b
      have hxb : x.2 ≤ b.2 := le_of_not_lt hbx
      refine ⟨?_, h2, ?_, ?_⟩
      · rcases List.mem_cons.mp h1 with hh | hh
        · rw [hh]; exact List.mem_cons_self b (x :: t)
        · exact List.mem_cons_of_mem b (List.mem_cons_of_mem x hh)
      · intro p hp
        rcases List.mem_cons.mp hp with rfl | hp
        · exact hxb.trans h2
        · exact h3 p hp
      · rw [List.find?_cons] at h4 ⊢
        by_cases hrb : (t.foldl (fun b p => if b.2 < p.2 then p else b) b).2 ≤ b.2
        · simp only [decide_eq_true hrb] at h4 ⊢
          exact h4
        · simp only [decide_eq_false hrb] at h4 ⊢
          rw [List.find?_cons]
          have hrx : ¬ (t.foldl (fun b p => if b.2 < p.2 then p else b) b).2 ≤ x.2 :=
            fun hle => hrb (hle.trans hxb)
          simp only [decide_eq_false hrx]
          exact h4

theorem foldlMin_spec (xs : List (String × ℚ)) :
    ∀ b : String × ℚ,
      (xs.foldl (fun b p => if p.2 < b.2 then p else b) b) ∈ b :: xs
      ∧ (xs.foldl (fun b p => if p.2 < b.2 then p else b) b).2 ≤ b.2
      ∧ (∀ p ∈ xs, (xs.foldl (fun b p => if p.2 < b.2 then p else b) b).2 ≤ p.2)
      ∧ (b :: xs).find?
          (fun p => decide (p.2 ≤ (xs.foldl (fun b p => if p.2 < b.2 then p else b) b).2))
          = some (xs.foldl (fun b p => if p.2 < b.2 then p else b) b) := by
  induction xs with
  | nil =>
    intro b
    refine ⟨List.mem_cons_self b [], le_refl _, by simp, ?_⟩
    rw [List.find?_cons]
    simp
  | cons x t ih =>
    intro b
    simp only [List.foldl_cons]
    by_cases hxb : x.2 < b.2
    · have hstep : (if x.2 < b.2 then x else b) = x := if_pos hxb
      simp only [hstep]
      obtain ⟨h1, h2, h3, h4⟩ := ih x
      refine ⟨?_, ?_, ?_, ?_⟩
      · rcases List.mem_cons.mp h1 with hh | hh
        · rw [hh]; exact List.mem_cons_of_mem b (List.mem_cons_self x t)
        · exact List.mem_cons_of_mem b (List.mem_cons_of_mem x hh)
      · exact le_of_lt (lt_of_le_of_lt h2 hxb)
      · intro p hp
        rcases List.mem_cons.mp hp with rfl | hp
        · exact h2
        · exact h3 p hp
      · rw [List.find?_cons]
        have hb : ¬ b.2 ≤ (t.foldl (fun b p => if p.2 < b.2 then p else b) x).2 :=
          not_le_of_lt (lt_of_le_of_lt h2 hxb)
        simp only [decide_eq_false hb]
        exact h4
    · have hstep : (if x.2 < b.2 then x else b) = b := if_neg hxb
      simp only [hstep]
      obtain ⟨h1, h2, h3, h4⟩ := ih b
      have hbx : b.2 ≤ x.2 := le_of_not_lt hxb
      refine ⟨?_, h2, ?_, ?_⟩
      · rcases List.mem_cons.mp h1 with hh | hh
        · rw [hh]; exact List.mem_cons_self b (x :: t)
        · exact List.mem_cons_of_mem b (List.mem_cons_of_mem x hh)
      · intro p hp
        rcases List.mem_cons.mp hp with rfl | hp
        · exact h2.trans hbx
        · exact h3 p hp
      · rw [List.find?_cons] at h4 ⊢
        by_cases hrb : b.2 ≤ (t.foldl (fun b p => if p.2 < b.2 then p else b) b).2
        · simp only [decide_eq_true hrb] at h4 ⊢
          exact h4
        · simp only [decide_eq_false hrb] at h4 ⊢
          rw [List.find?_cons]
          have hrx : ¬ x.2 ≤ (t.foldl (fun b p => if p.2 < b.2 then p else b) b).2 :=
            fun hle => hrb (hbx.trans hle)
          simp only [decide_eq_false hrx]
          exact h4

/-- `maxByVal` on a nonempty mapping returns the first entry attaining the
maximal value. -/
theorem maxByVal_first_max (rates : List (String × ℚ)) (h : rates ≠ []) :
    ∃ hi, maxByVal rates = some hi ∧ hi ∈ rates
      ∧ (∀ p ∈ rates, p.2 ≤ hi.2)
      ∧ rates.find? (fun p => decide (hi.2 ≤ p.2)) = some hi := by
  cases rates with
  | nil => exact absurd rfl h
  | cons x xs =>
    obtain ⟨h1, _, h3, h4⟩ := foldlMax_spec xs x
    refine ⟨_, rfl, h1, ?_, h4⟩
    intro p hp
    rcases List.mem_cons.mp hp with rfl | hp
    · exact (foldlMax_spec xs p).2.1
    · exact h3 p hp

/-- `minByVal` on a nonempty mapping returns the first entry attaining the
minimal value. -/
theorem minByVal_first_min (rates : List (String × ℚ)) (h : rates ≠ []) :
    ∃ lo, minByVal rates = some lo ∧ lo ∈ rates
      ∧ (∀ p ∈ rates, lo.2 ≤ p.2)
      ∧ rates.find? (fun p => decide (p.2 ≤ lo.2)) = some lo := by
  cases rates with
  | nil => exact absurd rfl h
  | cons x xs =>
    obtain ⟨h1, _, h3, h4⟩ := foldlMin_spec xs x
    refine ⟨_, rfl, h1, ?_, h4⟩
    intro p hp
    rcases List.mem_cons.mp hp with rfl | hp
    · exact (foldlMin_spec xs p).2.1
    · exact h3 p hp

/- ### String helper lemmas -/

/-- Two strings whose third characters differ are different, regardless of
what follows the first one. -/
theorem append_ne_of_third_char (p s r : String) (hi : 2 < p.data.length)
    (hne : p.data[2]? ≠ r.data[2]?) : p ++ s ≠ r := by
  intro h
  have h2 := congrArg (fun t => t.data[2]?) h
  simp only [String.data_append] at h2
  rw [List.getElem?_append, if_pos hi] at h2
  exact hne h2

theorem append_empty_str (s : String) : s ++ "" = s := by
  apply String.ext
  rw [String.data_append]
  exact List.append_nil s.data

/- ### Sample data (the `/fairness` endpoint metrics, app.py 400-433) -/

/-- Sample gender metrics from the `/fairness` endpoint. -/
def sampleGender : BiasMetrics :=
  ⟨[("Male", 0.72), ("Female", 0.64)], 0.08,
   [("Male", 0.15), ("Female", 0.12)],
   [("Male", 0.10), ("Female", 0.18)], 0.03, 0.08⟩

/-- Sample race metrics from the `/fairness` endpoint. -/
def sampleRace : BiasMetrics :=
  ⟨[("White", 0.75), ("Black", 0.62), ("Asian", 0.70), ("Hispanic", 0.65)], 0.13,
   [("White", 0.16), ("Black", 0.11), ("Asian", 0.14), ("Hispanic", 0.12)],
   [("White", 0.09), ("Black", 0.19), ("Asian", 0.12), ("Hispanic", 0.16)], 0.05, 0.10⟩

/-- Sample age-group metrics from the `/fairness` endpoint. -/
def sampleAgeGroup : BiasMetrics :=
  ⟨[("Under 25", 0.65), ("25-60", 0.72), ("Over 60", 0.68)], 0.07,
   [("Under 25", 0.13), ("25-60", 0.15), ("Over 60", 0.14)],
   [("Under 25", 0.18), ("25-60", 0.10), ("Over 60", 0.15)], 0.02, 0.08⟩

/-- Sample disability-status metrics from the `/fairness` endpoint. -/
def sampleDisability : BiasMetrics :=
  ⟨[("Yes", 0.62), ("No", 0.73)], 0.11,
   [("Yes", 0.12), ("No", 0.15)],
   [("Yes", 0.20), ("No", 0.09)], 0.03, 0.11⟩

/-- Sample fairness report from the `/fairness` endpoint. -/
def sampleFairness : FairnessResponse :=
  ⟨sampleGender, sampleRace, sampleAgeGroup, sampleDisability⟩

/- ### Claims -/

/-- C1: for every FairnessReport, the bias report's summary alert line and
its conclusion paragraph both correspond to the severity tier determined by
the maximum absolute disparity (over the four attributes, each disparity
being `approval_disparity * 100`) with strict thresholds: high iff max > 10,
moderate iff 5 < max <= 10, low otherwise; boundary values exactly 10 and
exactly 5 map to the lower tier, and summary and conclusion always agree. -/
theorem C1_bias_severity_tiers (fd : FairnessResponse) :
    (10 < maxAbsDisparity fd →
      summaryLine fd = "**High Bias Alert**: Significant disparities detected in approval rates across protected attributes.\n\n"
      ∧ conclusionLine fd = "The model shows significant bias that requires immediate attention. Implementing bias mitigation techniques is strongly recommended before deploying this model in production.\n")
    ∧ (5 < maxAbsDisparity fd ∧ maxAbsDisparity fd ≤ 10 →
      summaryLine fd = "**Moderate Bias Alert**: Some disparities detected in approval rates across protected attributes.\n\n"
      ∧ conclusionLine fd = "The model shows moderate bias that should be addressed. Consider implementing bias mitigation techniques to improve fairness before full deployment.\n")
    ∧ (maxAbsDisparity fd ≤ 5 →
      summaryLine fd = "**Low Bias Alert**: Minimal disparities detected in approval rates across protected attributes.\n\n"
      ∧ conclusionLine fd = "The model shows acceptable levels of bias, but continuous monitoring is recommended to ensure fairness is maintained over time.\n")
    ∧ (∀ msg, generate_bias_explanation fd = some msg →
      ∃ mid, msg = "## Bias Analysis Report\n\n### Summary of Findings\n\n"
        ++ (summaryLine fd
        ++ ("### Detailed Analysis\n\n"
        ++ (mid
        ++ ("### Conclusion\n\n" ++ conclusionLine fd))))) := by
  refine ⟨?_, ?_, ?_, ?_⟩
  · intro h
    constructor <;> simp [summaryLine, conclusionLine, h]
  · rintro ⟨h5, h10⟩
    have hn : ¬ (10 < maxAbsDisparity fd) := not_lt.mpr h10
    constructor <;> simp [summaryLine, conclusionLine, hn, h5]
  · intro h
    have hn10 : ¬ (10 < maxAbsDisparity fd) :=
      not_lt.mpr (h.trans (by norm_num))
    have hn5 : ¬ (5 < maxAbsDisparity fd) := not_lt.mpr h
    constructor <;> simp [summaryLine, conclusionLine, hn10, hn5]
  · intro msg h
    unfold generate_bias_explanation at h
    cases hb : biasSections fd (sorted_disparities fd) with
    | none => rw [hb] at h; simp at h
    | some secs =>
      rw [hb] at h
      simp only [Option.map_some'] at h
      exact ⟨String.join secs, (Option.some.injEq _ _).mp h |>.symm⟩

/-- Witness for C1 at the sample fairness metrics (max disparity 13 > 10). -/
theorem C1_bias_severity_tiers_witness :
    summaryLine sampleFairness = "**High Bias Alert**: Significant disparities detected in approval rates across protected attributes.\n\n"
    ∧ conclusionLine sampleFairness = "The model shows significant bias that requires immediate attention. Implementing bias mitigation techniques is strongly recommended before deploying this model in production.\n" :=
  (C1_bias_severity_tiers sampleFairness).1 (by
    norm_num [maxAbsDisparity, disparities, sampleFairness, sampleGender,
      sampleRace, sampleAgeGroup, sampleDisability])

/-- C2: the attribute named in the remediation strategy's Focus-particularly-on
sentence equals the attribute with maximum absolute disparity among the four
inputs (each disparity `approval_disparity * 100`); on ties the first in the
fixed order Gender, Race, Age Group, Disability Status is named. The first
conjunct states that the head of the ranked list is the first entry, in the
fixed input order, whose absolute disparity dominates all four. -/
theorem C2_remediation_names_most_disparate (fd : FairnessResponse) :
    (disparities fd).find?
        (fun p => (disparities fd).all (fun q => decide (|q.2| ≤ |p.2|)))
      = some ((sorted_disparities fd).headD ("", 0))
    ∧ most_biased fd = ((sorted_disparities fd).headD ("", 0)).1
    ∧ generate_remediation_strategy fd
      = remediationBefore
        ++ (("   - Focus particularly on "
          ++ (most_biased fd
          ++ " fairness, which shows the highest disparity\n\n"))
        ++ remediationAfter) := by
  refine ⟨?_, rfl, rfl⟩
  exact sortDescBy_head_first_max (fun p => |p.2|)
    ("Gender", fd.gender.approval_disparity * 100)
    [("Race", fd.race.approval_disparity * 100),
     ("Age Group", fd.age_group.approval_disparity * 100),
     ("Disability Status", fd.disability_status.approval_disparity * 100)]
    ("", 0)

/-- The bias report generated for the sample fairness metrics. -/
def sampleBiasReport : String :=
  "## Bias Analysis Report\n\n### Summary of Findings\n\n**High Bias Alert**: Significant disparities detected in approval rates across protected attributes.\n\n### Detailed Analysis\n\n**Race**:\n- Approval rate disparity: 13.0%\n- Highest approval rate: White (75.0%)\n- Lowest approval rate: Black (62.0%)\n- **Regulatory concern**: This disparity exceeds the typical 5% threshold for regulatory scrutiny.\n\n**Disability Status**:\n- Approval rate disparity: 11.0%\n- Highest approval rate: No (73.0%)\n- Lowest approval rate: Yes (62.0%)\n- **Regulatory concern**: This disparity exceeds the typical 5% threshold for regulatory scrutiny.\n\n**Gender**:\n- Approval rate disparity: 8.0%\n- Highest approval rate: Male (72.0%)\n- Lowest approval rate: Female (64.0%)\n- **Regulatory concern**: This disparity exceeds the typical 5% threshold for regulatory scrutiny.\n\n**Age Group**:\n- Approval rate disparity: 7.0%\n- Highest approval rate: 25-60 (72.0%)\n- Lowest approval rate: Under 25 (65.0%)\n- **Regulatory concern**: This disparity exceeds the typical 5% threshold for regulatory scrutiny.\n\n### Conclusion\n\nThe model shows significant bias that requires immediate attention. Implementing bias mitigation techniques is strongly recommended before deploying this model in production.\n"

set_option maxHeartbeats 2000000 in
set_option maxRecDepth 4096 in
/-- End-to-end evaluation of the bias report on the sample metrics. -/
theorem sampleBias_eval :
    generate_bias_explanation sampleFairness = some sampleBiasReport := by
  have f7 : fmt1 7 = "7.0" := by
    norm_num [fmt1, rndDiv]
    decide
  have f8 : fmt1 8 = "8.0" := by
    norm_num [fmt1, rndDiv]
    decide
  have f11 : fmt1 11 = "11.0" := by
    norm_num [fmt1, rndDiv]
    decide
  have f13 : fmt1 13 = "13.0" := by
    norm_num [fmt1, rndDiv]
    decide
  have f62 : fmt1 62 = "62.0" := by
    norm_num [fmt1, rndDiv]
    decide
  have f64 : fmt1 64 = "64.0" := by
    norm_num [fmt1, rndDiv]
    decide
  have f65 : fmt1 65 = "65.0" := by
    norm_num [fmt1, rndDiv]
    decide
  have f72 : fmt1 72 = "72.0" := by
    norm_num [fmt1, rndDiv]
    decide
  have f73 : fmt1 73 = "73.0" := by
    norm_num [fmt1, rndDiv]
    decide
  have f75 : fmt1 75 = "75.0" := by
    norm_num [fmt1, rndDiv]
    decide
  norm_num [generate_bias_explanation, biasSections, sorted_disparities,
    disparities, sortDescBy, insertDescBy, attrSection, sectionLines,
    maxByVal, minByVal, summaryLine, conclusionLine, maxAbsDisparity,
    regLine, sampleFairness, sampleGender, sampleRace,
    sampleAgeGroup, sampleDisability, sampleBiasReport, String.join,
    f7, f8, f11, f13, f62, f64, f65, f72, f73, f75]
  simp

/-- C3: the bias report emits its per-attribute subsections sorted by
absolute disparity magnitude in descending order, and the sort is stable:
attributes of equal absolute magnitude appear in the fixed input order
Gender, Race, Age Group, Disability Status (expressed as: for every
magnitude, filtering the ranked list yields the input-order sublist). -/
theorem C3_bias_sections_sorted_stable (fd : FairnessResponse) :
    (sorted_disparities fd).Pairwise (fun a b => |b.2| ≤ |a.2|)
    ∧ (∀ m : ℚ, (sorted_disparities fd).filter (fun p => decide (|p.2| = m))
        = (disparities fd).filter (fun p => decide (|p.2| = m)))
    ∧ (∀ msg, generate_bias_explanation fd = some msg →
        ∃ secs, biasSections fd (sorted_disparities fd) = some secs
          ∧ msg = "## Bias Analysis Report\n\n### Summary of Findings\n\n"
            ++ (summaryLine fd
            ++ ("### Detailed Analysis\n\n"
            ++ (String.join secs
            ++ ("### Conclusion\n\n" ++ conclusionLine fd))))) := by
  refine ⟨pairwise_sortDescBy _ _, fun m => filter_sortDescBy _ m _, ?_⟩
  intro msg h
  unfold generate_bias_explanation at h
  cases hb : biasSections fd (sorted_disparities fd) with
  | none => rw [hb] at h; simp at h
  | some secs =>
    rw [hb] at h
    simp only [Option.map_some'] at h
    exact ⟨secs, rfl, ((Option.some.injEq _ _).mp h).symm⟩

/-- Witness for C3 at the sample fairness metrics. -/
theorem C3_bias_sections_sorted_stable_witness :
    ∃ secs, biasSections sampleFairness (sorted_disparities sampleFairness) = some secs
      ∧ sampleBiasReport = "## Bias Analysis Report\n\n### Summary of Findings\n\n"
        ++ (summaryLine sampleFairness
        ++ ("### Detailed Analysis\n\n"
        ++ (String.join secs
        ++ ("### Conclusion\n\n" ++ conclusionLine sampleFairness)))) :=
  (C3_bias_sections_sorted_stable sampleFairness).2.2 sampleBiasReport sampleBias_eval

/-- C4: an attribute subsection of the bias report contains the fixed
regulatory-concern line exactly when that attribute's absolute disparity
(`approval_disparity * 100`) is strictly greater than 5; in particular a
subsection with absolute disparity exactly 5 is not flagged. -/
theorem C4_regulatory_flag_iff (rates : List (String × ℚ)) (d : ℚ)
    (ls : List String) (h : sectionLines rates d = some ls) :
    regLine ∈ ls ↔ |d| > 5 := by
  unfold sectionLines at h
  cases hmax : maxByVal rates with
  | none => rw [hmax] at h; exact absurd h (by simp)
  | some hi =>
    cases hmin : minByVal rates with
    | none => rw [hmax, hmin] at h; exact absurd h (by simp)
    | some lo =>
      rw [hmax, hmin] at h
      have hls := (Option.some.inj h).symm
      constructor
      · intro hmem
        by_contra hd
        rw [if_neg hd, List.append_nil] at hls
        rw [hls] at hmem
        have hA : ("- Approval rate disparity: " ++ (fmt1 d ++ "%\n")) ≠ regLine :=
          append_ne_of_third_char _ _ _ (by decide) (by decide)
        have hH : ("- Highest approval rate: "
            ++ (hi.1 ++ (" (" ++ (fmt1 (hi.2 * 100) ++ "%)\n")))) ≠ regLine :=
          append_ne_of_third_char _ _ _ (by decide) (by decide)
        have hL : ("- Lowest approval rate: "
            ++ (lo.1 ++ (" (" ++ (fmt1 (lo.2 * 100) ++ "%)\n")))) ≠ regLine :=
          append_ne_of_third_char _ _ _ (by decide) (by decide)
        simp only [List.mem_cons, List.not_mem_nil, or_false] at hmem
        rcases hmem with hm | hm | hm
        · exact hA hm.symm
        · exact hH hm.symm
        · exact hL hm.symm
      · intro hd
        rw [if_pos hd] at hls
        rw [hls]
        exact List.mem_append_right _ (List.mem_singleton.mpr rfl)

/-- Witness for C4: a subsection whose disparity is exactly 5 carries no
regulatory-concern line. -/
theorem C4_regulatory_flag_iff_witness :
    ¬ regLine ∈ ["- Approval rate disparity: 5.0%\n",
                 "- Highest approval rate: A (100.0%)\n",
                 "- Lowest approval rate: B (0.0%)\n"] := by
  have h := C4_regulatory_flag_iff [("A", 1), ("B", 0)] 5
      ["- Approval rate disparity: 5.0%\n",
       "- Highest approval rate: A (100.0%)\n",
       "- Lowest approval rate: B (0.0%)\n"] (by
        have f5 : fmt1 5 = "5.0" := by
          norm_num [fmt1, rndDiv]
          decide
        have f100 : fmt1 100 = "100.0" := by
          norm_num [fmt1, rndDiv]
          decide
        have f0 : fmt1 0 = "0.0" := by
          norm_num [fmt1, rndDiv]
          decide
        norm_num [sectionLines, maxByVal, minByVal, f5, f100, f0]
        simp)
  rw [h]
  norm_num

/-- The sample prediction of the C5 acceptance test: approved, probability
0.8, three explanation factors. -/
def samplePrediction : PredictionResponse :=
  ⟨true, 0.8, [("credit_score", 0.4), ("income", 0.3), ("loan_amount", 0.2)]⟩

set_option maxRecDepth 4096 in
/-- C5: the loan-decision explanation lists the factors sorted by signed
impact value descending, truncated to the top 3, each bullet showing the
humanized factor name and the impact as a one-decimal percentage; for
approved=true, probability=0.8, explanation={credit_score:0.4, income:0.3,
loan_amount:0.2} the bullets are Credit Score 40.0%, Income 30.0%,
Loan Amount 20.0% in that order, and the opening contains "approved". -/
theorem C5_loan_factors_ranked :
    (∀ prediction : PredictionResponse,
      top_factors prediction
          = (sortDescBy (fun x => x.2) prediction.explanation).take 3
      ∧ (top_factors prediction).length ≤ 3
      ∧ (top_factors prediction).Pairwise (fun a b => b.2 ≤ a.2))
    ∧ (∀ application : LoanApplication,
        generate_loan_explanation application samplePrediction
          = "\nWe are pleased to inform you that your loan application has been approved with an approval probability of 80.0%. Our BiasShield system has carefully evaluated your application, taking into account various factors that contribute to your creditworthiness.\n\nThe key factors that positively influenced this decision include:\n"
            ++ ("- Credit Score: This factor had a 40.0% impact on your approval\n- Income: This factor had a 30.0% impact on your approval\n- Loan Amount: This factor had a 20.0% impact on your approval\n"
            ++ approvedTail application))
    ∧ occursB ("approved".data)
        ("\nWe are pleased to inform you that your loan application has been approved with an approval probability of 80.0%. Our BiasShield system has carefully evaluated your application, taking into account various factors that contribute to your creditworthiness.\n\nThe key factors that positively influenced this decision include:\n").data
        = true := by
  refine ⟨?_, ?_, by decide⟩
  · intro prediction
    refine ⟨rfl, List.length_take_le 3 _, ?_⟩
    exact List.Pairwise.sublist (List.take_sublist 3 _)
      (pairwise_sortDescBy (fun x => x.2) prediction.explanation)
  · intro application
    have hfac : top_factors samplePrediction
        = [("credit_score", 0.4), ("income", 0.3), ("loan_amount", 0.2)] := by
      norm_num [top_factors, sortDescBy, insertDescBy, samplePrediction]
    have f80 : fmt1 (0.8 * 100) = "80.0" := by
      norm_num [fmt1, rndDiv]
      decide
    have f40 : fmt1 (0.4 * 100) = "40.0" := by
      norm_num [fmt1, rndDiv]
      decide
    have f30 : fmt1 (0.3 * 100) = "30.0" := by
      norm_num [fmt1, rndDiv]
      decide
    have f20 : fmt1 (0.2 * 100) = "20.0" := by
      norm_num [fmt1, rndDiv]
      decide
    have tCredit : pyTitle (underscoreToSpace "credit_score") = "Credit Score" := by
      decide
    have tIncome : pyTitle (underscoreToSpace "income") = "Income" := by decide
    have tLoan : pyTitle (underscoreToSpace "loan_amount") = "Loan Amount" := by
      decide
    simp [generate_loan_explanation, hfac, factorLineApproved,
      approvedOpening, f80, f40, f30, f20, tCredit, tIncome, tLoan, String.join,
      show samplePrediction.approved = true from rfl,
      show samplePrediction.approval_probability = 0.8 from rfl]

set_option maxRecDepth 8192 in
/-- C6: for approved=false the loan explanation is the denied opening, the
factor bullets, and the static denied tail, which carries exactly 4 numbered
improvement recommendations and the invitation to request a detailed
explanation; for approved=true it is the approved opening, the bullets, and
a tail quoting the credit score and the income as currency, whose static
part carries exactly 3 numbered maintenance recommendations. -/
theorem C6_recommendation_blocks (application : LoanApplication)
    (prediction : PredictionResponse) :
    (prediction.approved = false →
      generate_loan_explanation application prediction
        = deniedOpening (prediction.approval_probability * 100)
          ++ (String.join ((top_factors prediction).map factorLineDenied)
          ++ deniedTail)
      ∧ countNumbered deniedTail = 4
      ∧ occursB ("you can request a detailed explanation of the decision".data)
          deniedTail.data = true)
    ∧ (prediction.approved = true →
      generate_loan_explanation application prediction
        = approvedOpening (prediction.approval_probability * 100)
          ++ (String.join ((top_factors prediction).map factorLineApproved)
          ++ approvedTail application)
      ∧ approvedTail application
        = "\nYour credit score of " ++ (toString application.credit_score
          ++ (" and income of $" ++ (fmtMoney application.income ++ approvedStatic)))
      ∧ countNumbered approvedStatic = 3) := by
  constructor
  · intro h
    refine ⟨?_, by decide, by decide⟩
    simp [generate_loan_explanation, h]
  · intro h
    refine ⟨?_, rfl, by decide⟩
    simp [generate_loan_explanation, h]

/-- A concrete application used by witnesses. -/
def sampleApplication : LoanApplication :=
  ⟨"Female", "Black", 30, 50000, 650, 120000, "Salaried", "Bachelors",
   "Citizen", "Fluent", "No", "No", "Group A"⟩

/-- A concrete denied prediction used by witnesses. -/
def deniedPrediction : PredictionResponse :=
  ⟨false, 0.2, [("credit_score", 0.4), ("income", 0.3), ("loan_amount", 0.2)]⟩

/-- Witness for C6 at a denied prediction. -/
theorem C6_recommendation_blocks_witness :
    generate_loan_explanation sampleApplication deniedPrediction
      = deniedOpening (deniedPrediction.approval_probability * 100)
        ++ (String.join ((top_factors deniedPrediction).map factorLineDenied)
        ++ deniedTail)
    ∧ countNumbered deniedTail = 4
    ∧ occursB ("you can request a detailed explanation of the decision".data)
        deniedTail.data = true :=
  (C6_recommendation_blocks sampleApplication deniedPrediction).1 rfl

/-- C7: an empty explanation mapping is handled without error: the top-factor
list degenerates to zero bullets and the rest of the chosen branch is still
produced in full. -/
theorem C7_empty_explanation_graceful (application : LoanApplication)
    (prediction : PredictionResponse) (h : prediction.explanation = []) :
    top_factors prediction = []
    ∧ generate_loan_explanation application prediction
      = (if prediction.approved then
           approvedOpening (prediction.approval_probability * 100)
             ++ approvedTail application
         else
           deniedOpening (prediction.approval_probability * 100) ++ deniedTail) := by
  have ht : top_factors prediction = [] := by simp [top_factors, h, sortDescBy]
  refine ⟨ht, ?_⟩
  cases happ : prediction.approved <;>
    simp [generate_loan_explanation, happ, ht, String.join]

/-- A concrete prediction with an empty factor mapping. -/
def emptyPrediction : PredictionResponse := ⟨false, 0.2, []⟩

/-- Witness for C7 at a prediction with an empty factor mapping. -/
theorem C7_empty_explanation_graceful_witness :
    top_factors emptyPrediction = []
    ∧ generate_loan_explanation sampleApplication emptyPrediction
      = (if emptyPrediction.approved then
           approvedOpening (emptyPrediction.approval_probability * 100)
             ++ approvedTail sampleApplication
         else
           deniedOpening (emptyPrediction.approval_probability * 100) ++ deniedTail) :=
  C7_empty_explanation_graceful sampleApplication emptyPrediction rfl

/-- C8: for a nonempty rate mapping, the subsection names as highest a group
attaining the maximal rate and as lowest a group attaining the minimal rate
(the first so encountered in the mapping's iteration order in either case),
with each rate and the disparity rendered to one decimal. -/
theorem C8_extreme_groups (rates : List (String × ℚ)) (d : ℚ)
    (h : rates ≠ []) :
    ∃ hi lo, maxByVal rates = some hi ∧ minByVal rates = some lo
      ∧ hi ∈ rates ∧ lo ∈ rates
      ∧ (∀ p ∈ rates, p.2 ≤ hi.2) ∧ (∀ p ∈ rates, lo.2 ≤ p.2)
      ∧ rates.find? (fun p => decide (hi.2 ≤ p.2)) = some hi
      ∧ rates.find? (fun p => decide (p.2 ≤ lo.2)) = some lo
      ∧ sectionLines rates d = some
          (["- Approval rate disparity: " ++ (fmt1 d ++ "%\n"),
            "- Highest approval rate: " ++ (hi.1 ++ (" (" ++ (fmt1 (hi.2 * 100) ++ "%)\n"))),
            "- Lowest approval rate: " ++ (lo.1 ++ (" (" ++ (fmt1 (lo.2 * 100) ++ "%)\n")))]
           ++ if |d| > 5 then [regLine] else []) := by
  obtain ⟨hi, hmax, hmem, hub, hfirst⟩ := maxByVal_first_max rates h
  obtain ⟨lo, hmin, hmem', hlb, hfirst'⟩ := minByVal_first_min rates h
  refine ⟨hi, lo, hmax, hmin, hmem, hmem', hub, hlb, hfirst, hfirst', ?_⟩
  unfold sectionLines
  rw [hmax, hmin]

/-- Witness for C8 at the sample race metrics. -/
theorem C8_extreme_groups_witness :
    ∃ hi lo, maxByVal sampleRace.approval_rates = some hi
      ∧ minByVal sampleRace.approval_rates = some lo
      ∧ hi ∈ sampleRace.approval_rates ∧ lo ∈ sampleRace.approval_rates
      ∧ (∀ p ∈ sampleRace.approval_rates, p.2 ≤ hi.2)
      ∧ (∀ p ∈ sampleRace.approval_rates, lo.2 ≤ p.2)
      ∧ sampleRace.approval_rates.find? (fun p => decide (hi.2 ≤ p.2)) = some hi
      ∧ sampleRace.approval_rates.find? (fun p => decide (p.2 ≤ lo.2)) = some lo
      ∧ sectionLines sampleRace.approval_rates 13 = some
          (["- Approval rate disparity: " ++ (fmt1 13 ++ "%\n"),
            "- Highest approval rate: " ++ (hi.1 ++ (" (" ++ (fmt1 (hi.2 * 100) ++ "%)\n"))),
            "- Lowest approval rate: " ++ (lo.1 ++ (" (" ++ (fmt1 (lo.2 * 100) ++ "%)\n")))]
           ++ if |(13:ℚ)| > 5 then [regLine] else []) :=
  C8_extreme_groups sampleRace.approval_rates 13 (by simp [sampleRace])

/-- C9: the remediation strategy is a function of the rank-1 attribute name
alone — any two reports with the same most-disparate attribute produce
byte-identical output, and the whole document is static text apart from the
single sentence naming that attribute (see the definition of
`generate_remediation_strategy`). -/
theorem C9_remediation_static_apart_from_top (fd1 fd2 : FairnessResponse)
    (h : most_biased fd1 = most_biased fd2) :
    generate_remediation_strategy fd1 = generate_remediation_strategy fd2 := by
  unfold generate_remediation_strategy
  rw [h]

/-- Metrics with no disparity, used to build a second report whose
most-disparate attribute is also Race. -/
def quietMetrics : BiasMetrics :=
  ⟨[("A", 0.5), ("B", 0.5)], 0, [("A", 0.1)], [("A", 0.1)], 0, 0⟩

/-- A fairness report, different from the sample one, whose most-disparate
attribute is also Race. -/
def raceOnlyFairness : FairnessResponse :=
  ⟨quietMetrics,
   ⟨[("B", 0.9), ("C", 0.7)], 0.2, [("B", 0.1)], [("B", 0.1)], 0.1, 0.1⟩,
   quietMetrics, quietMetrics⟩

/-- Witness for C9: two different reports with Race on top produce the same
remediation document. -/
theorem C9_remediation_static_apart_from_top_witness :
    generate_remediation_strategy sampleFairness
      = generate_remediation_strategy raceOnlyFairness :=
  C9_remediation_static_apart_from_top sampleFairness raceOnlyFairness (by
    have h1 : most_biased sampleFairness = "Race" := by
      norm_num [most_biased, sorted_disparities, disparities, sortDescBy,
        insertDescBy, sampleFairness, sampleGender, sampleRace,
        sampleAgeGroup, sampleDisability]
    have h2 : most_biased raceOnlyFairness = "Race" := by
      norm_num [most_biased, sorted_disparities, disparities, sortDescBy,
        insertDescBy, raceOnlyFairness, quietMetrics]
    rw [h1, h2])

/-- C10: the loan explanation depends on the application only through
credit_score and income; in the denied branch it depends on no application
field; and the bias report and remediation strategy depend on the metrics
only through the approval_rates/approval_disparity fields, never through
fp_rates, fn_rates, fp_disparity or fn_disparity. -/
theorem C10_no_protected_attribute_influence :
    (∀ app1 app2 : LoanApplication, ∀ prediction : PredictionResponse,
      app1.credit_score = app2.credit_score → app1.income = app2.income →
      generate_loan_explanation app1 prediction
        = generate_loan_explanation app2 prediction)
    ∧ (∀ app1 app2 : LoanApplication, ∀ prediction : PredictionResponse,
      prediction.approved = false →
      generate_loan_explanation app1 prediction
        = generate_loan_explanation app2 prediction)
    ∧ (∀ fd1 fd2 : FairnessResponse,
      fd1.gender.approval_rates = fd2.gender.approval_rates →
      fd1.gender.approval_disparity = fd2.gender.approval_disparity →
      fd1.race.approval_rates = fd2.race.approval_rates →
      fd1.race.approval_disparity = fd2.race.approval_disparity →
      fd1.age_group.approval_rates = fd2.age_group.approval_rates →
      fd1.age_group.approval_disparity = fd2.age_group.approval_disparity →
      fd1.disability_status.approval_rates = fd2.disability_status.approval_rates →
      fd1.disability_status.approval_disparity = fd2.disability_status.approval_disparity →
      generate_bias_explanation fd1 = generate_bias_explanation fd2
      ∧ generate_remediation_strategy fd1 = generate_remediation_strategy fd2) := by
  refine ⟨?_, ?_, ?_⟩
  · intro app1 app2 prediction h1 h2
    cases happ : prediction.approved <;>
      simp [generate_loan_explanation, approvedTail, happ, h1, h2]
  · intro app1 app2 prediction h
    simp [generate_loan_explanation, h]
  · intro fd1 fd2 hgr hgd hrr hrd har had hdr hdd
    have hd : disparities fd1 = disparities fd2 := by
      simp [disparities, hgd, hrd, had, hdd]
    have hsd : sorted_disparities fd1 = sorted_disparities fd2 := by
      simp [sorted_disparities, hd]
    have hmaxd : maxAbsDisparity fd1 = maxAbsDisparity fd2 := by
      simp [maxAbsDisparity, hd]
    have hs : attrSection fd1 = attrSection fd2 := by
      funext p
      simp [attrSection, hgr, hrr, har, hdr]
    have hsec : ∀ l, biasSections fd1 l = biasSections fd2 l := by
      intro l
      induction l with
      | nil => rfl
      | cons p ps ih => simp [biasSections, congrFun hs p, ih]
    have hsum : summaryLine fd1 = summaryLine fd2 := by
      simp [summaryLine, hmaxd]
    have hconc : conclusionLine fd1 = conclusionLine fd2 := by
      simp [conclusionLine, hmaxd]
    have hmb : most_biased fd1 = most_biased fd2 := by
      simp [most_biased, hsd]
    constructor
    · unfold generate_bias_explanation
      rw [hsd, hsec, hsum, hconc]
    · unfold generate_remediation_strategy
      rw [hmb]

/-- A second application differing from `sampleApplication` only in
protected and other non-financial fields. -/
def sampleApplication2 : LoanApplication :=
  ⟨"Male", "White", 55, 50000, 650, 90000, "Self-employed", "Masters",
   "Visa", "Basic", "Yes", "Yes", "Group C"⟩

/-- The sample fairness report with all false-positive/false-negative fields
replaced, approval fields unchanged. -/
def sampleFairnessFpAltered : FairnessResponse :=
  ⟨⟨[("Male", 0.72), ("Female", 0.64)], 0.08, [("Z", 0.9)], [("Z", 0.9)], 0.9, 0.9⟩,
   ⟨[("White", 0.75), ("Black", 0.62), ("Asian", 0.70), ("Hispanic", 0.65)], 0.13,
    [("Z", 0.9)], [("Z", 0.9)], 0.9, 0.9⟩,
   ⟨[("Under 25", 0.65), ("25-60", 0.72), ("Over 60", 0.68)], 0.07,
    [("Z", 0.9)], [("Z", 0.9)], 0.9, 0.9⟩,
   ⟨[("Yes", 0.62), ("No", 0.73)], 0.11, [("Z", 0.9)], [("Z", 0.9)], 0.9, 0.9⟩⟩

/-- Witness for C10: changing protected attributes of the applicant, or the
fp/fn metric fields of the report, leaves the outputs unchanged. -/
theorem C10_no_protected_attribute_influence_witness :
    generate_loan_explanation sampleApplication samplePrediction
      = generate_loan_explanation sampleApplication2 samplePrediction
    ∧ generate_bias_explanation sampleFairness
      = generate_bias_explanation sampleFairnessFpAltered
    ∧ generate_remediation_strategy sampleFairness
      = generate_remediation_strategy sampleFairnessFpAltered :=
  ⟨C10_no_protected_attribute_influence.1 sampleApplication sampleApplication2
      samplePrediction rfl rfl,
   (C10_no_protected_attribute_influence.2.2 sampleFairness sampleFairnessFpAltered
      rfl rfl rfl rfl rfl rfl rfl rfl).1,
   (C10_no_protected_attribute_influence.2.2 sampleFairness sampleFairnessFpAltered
      rfl rfl rfl rfl rfl rfl rfl rfl).2⟩
